import Mathlib

/-!
Shallow embedding of the newsletter-digest pipeline (src/digest.py).

External services (Gmail listing/fetch/batchModify, Gemini, SES) are
modelled by an `Oracle` that fixes the outcome of each external call;
the pipeline itself is a pure Lean function of the oracle.  The
orchestrator `mainRun` returns the process exit code together with a
trace of the downstream calls it issued (summarize / send / acknowledge),
so temporal-ordering properties are statements about that trace.
-/

namespace Digest

/-- One MIME header of a fetched message, as in `message.payload.headers`. -/
structure Header where
  name : String
  value : String
deriving DecidableEq, Repr

/-- The `body` object of a payload or of one of its parts: it may or may
not carry a `data` field (base64url-encoded content). -/
structure PartBody where
  data : Option String
deriving DecidableEq, Repr

/-- One entry of a multi-part payload's `parts` list. -/
structure MsgPart where
  mimeType : String
  body : PartBody
deriving DecidableEq, Repr

/-- A message payload: headers, an optional `parts` list (present for
multi-part messages) and an optional top-level `body`. -/
structure Payload where
  headers : List Header
  parts : Option (List MsgPart)
  body : Option PartBody
deriving DecidableEq, Repr

/-- A full message as returned by `messages.get(format=full)`. -/
structure GmailMessage where
  payload : Payload
deriving DecidableEq, Repr

/-- The structured email record built by `get_unread_emails`
(`EmailRecord` of the data model). -/
structure Email where
  id : String
  subject : String
  sender : String
  date : String
  body : String
deriving DecidableEq, Repr

/-- Downstream calls issued by the orchestrator, in order.  An
`ackCall` records the ids sent to `batchModify` and whether the call
succeeded; a `sendCall` records the boolean the mailer returned. -/
inductive Event where
  | summarizeCall (emails : List Email)
  | sendCall (success : Bool)
  | ackCall (ids : List String) (ok : Bool)
deriving DecidableEq, Repr

/-- Outcomes of every external call a run can make.  `Except Unit _`
stands for an API call that either returns a value or raises
(`HttpError` for Gmail, any exception for SES / Gemini). -/
structure Oracle where
  env : String → Option String
  credsOk : Bool
  listResult : Except Unit (List String)
  getMsg : String → Except Unit GmailMessage
  decode : String → String
  geminiResult : Except Unit String
  sesResult : Except Unit String
  ackResult : Except Unit Unit

/-- `extract_body` loop over the `parts` list: take the first
`text/plain` part that carries `data` and decode it; a `text/plain`
part without `data` does not break the loop. -/
def extractFromParts (decode : String → String) : List MsgPart → String
  | [] => ""
  | p :: rest =>
    if p.mimeType = "text/plain" then
      match p.body.data with
      | some d => decode d
      | none => extractFromParts decode rest
    else extractFromParts decode rest

/-- `extract_body(payload)`: multi-part messages scan `parts` for a
plain-text part; single-part messages decode the top-level body when it
has `data`; otherwise the body is the empty string. -/
def extract_body (decode : String → String) (payload : Payload) : String :=
  match payload.parts with
  | some parts => extractFromParts decode parts
  | none =>
    match payload.body with
    | some b =>
      match b.data with
      | some d => decode d
      | none => ""
    | none => ""

/-- First header with the given name, or the default
(`next((h.value for h in headers if h.name == name), default)`). -/
def headerValue (headers : List Header) (name default : String) : String :=
  match headers.find? (fun h => h.name = name) with
  | some h => h.value
  | none => default

/-- Truncation `s[:n]` of a Python string: the first `n` characters. -/
def pySlice (s : String) (n : Nat) : String :=
  String.mk (s.toList.take n)

/-- Build one `Email` record from a fetched message: defaulted headers
and the extracted body truncated to 1000 characters (`body[:1000]`). -/
def buildEmail (decode : String → String) (id : String) (msg : GmailMessage) : Email :=
  { id := id
    subject := headerValue msg.payload.headers "Subject" "No Subject"
    sender := headerValue msg.payload.headers "From" "Unknown"
    date := headerValue msg.payload.headers "Date" "Unknown"
    body := pySlice (extract_body decode msg.payload) 1000 }

/-- The per-message fetch loop of `get_unread_emails`: a `messages.get`
failure (`HttpError`) for any id aborts the whole loop. -/
def fetchLoop (decode : String → String) (getMsg : String → Except Unit GmailMessage) :
    List String → Except Unit (List Email)
  | [] => .ok []
  | id :: rest =>
    match getMsg id with
    | .error e => .error e
    | .ok msg =>
      match fetchLoop decode getMsg rest with
      | .error e => .error e
      | .ok emails => .ok (buildEmail decode id msg :: emails)

/-- `get_unread_emails(service)`: list unread ids, fetch each message in
full and build records.  The whole body is wrapped in
`try ... except HttpError: return []`, so any listing or per-message
failure yields the empty list, not an exception. -/
def get_unread_emails (o : Oracle) : List Email :=
  match o.listResult with
  | .error _ => []
  | .ok ids =>
    if ids = [] then []
    else
      match fetchLoop o.decode o.getMsg ids with
      | .error _ => []
      | .ok emails => emails

/-- Failure modes of `summarize_emails_with_gemini`: the defensive
`ValueError("No emails to summarize")` on an empty batch, or a
service-side failure of the Gemini call. -/
inductive SummErr where
  | emptyInput
  | service
deriving DecidableEq, Repr

/-- `summarize_emails_with_gemini(emails, api_key)`: raises on an empty
batch, otherwise returns the Gemini response text or propagates the
service failure. -/
def summarize_emails_with_gemini (emails : List Email) (geminiResult : Except Unit String) :
    Except SummErr String :=
  if emails = [] then .error .emptyInput
  else
    match geminiResult with
    | .ok text => .ok text
    | .error _ => .error .service

/-- `send_summary_email(summary, source, destination, region)`: the
`send_raw_email` call is wrapped in `try ... except Exception`, so the
function returns `True` on success and `False` on any failure, never
raising. -/
def send_summary_email (summary source_email destination_email aws_region : String)
    (sesResult : Except Unit String) : Bool :=
  match sesResult with
  | .ok _ => true
  | .error _ => false

/-- `mark_emails_as_read(service, email_ids)`: an empty id list returns
before any API call; otherwise one `batchModify` call is issued, whose
`HttpError` is caught and only logged.  The result is the list of API
calls issued. -/
def mark_emails_as_read (ackResult : Except Unit Unit) (email_ids : List String) :
    List Event :=
  if email_ids = [] then []
  else [.ackCall email_ids ackResult.isOk]

/-- The required environment variables validated at the top of `main`. -/
def requiredVars : List String :=
  ["GEMINI_API_KEY", "GMAIL_TOKEN_B64", "AWS_ACCESS_KEY_ID",
   "AWS_SECRET_ACCESS_KEY", "SOURCE_EMAIL", "DESTINATION_EMAIL"]

/-- `not os.environ.get(var)`: the variable is missing or empty. -/
def envMissing (env : String → Option String) (v : String) : Bool :=
  match env v with
  | some s => s = ""
  | none => true

/-- Result of one run: the process exit code and the trace of
downstream calls. -/
structure RunResult where
  exitCode : Nat
  trace : List Event
deriving DecidableEq, Repr

/-- `main()`: validate configuration, load credentials, fetch, early
exit on an empty batch, summarize, send, and acknowledge only after a
successful send.  `sys.exit(1)` is exit code 1; falling off the end of
the script is exit code 0. -/
def mainRun (o : Oracle) : RunResult :=
  if requiredVars.any (envMissing o.env) then ⟨1, []⟩
  else if ¬ o.credsOk then ⟨1, []⟩
  else
    let emails := get_unread_emails o
    if emails = [] then ⟨0, []⟩
    else
      match summarize_emails_with_gemini emails o.geminiResult with
      | .error _ => ⟨1, [.summarizeCall emails]⟩
      | .ok summary =>
        let source := (o.env "SOURCE_EMAIL").getD ""
        let dest := (o.env "DESTINATION_EMAIL").getD ""
        let region := (o.env "AWS_REGION").getD "us-east-1"
        let success := send_summary_email summary source dest region o.sesResult
        if ¬ success then ⟨1, [.summarizeCall emails, .sendCall false]⟩
        else
          let email_ids := emails.map (fun e => e.id)
          ⟨0, [.summarizeCall emails, .sendCall true] ++
              mark_emails_as_read o.ackResult email_ids⟩

/-- Effect of one trace event on the set of unread message ids: only a
successful `batchModify` clears unread flags. -/
def applyEvent (unread : List String) : Event → List String
  | .ackCall ids true => unread.filter (fun i => ¬ ids.contains i)
  | _ => unread

/-- Unread state after a run, starting from `init`. -/
def finalUnread (init : List String) (trace : List Event) : List String :=
  trace.foldl applyEvent init

/-- A payload has plain-text content when some `text/plain` part carries
`data` (multi-part case) or the top-level body carries `data`
(single-part case). -/
def hasPlainText (payload : Payload) : Bool :=
  match payload.parts with
  | some parts => parts.any (fun q => q.mimeType == "text/plain" && q.body.data.isSome)
  | none =>
    match payload.body with
    | some b => b.data.isSome
    | none => false

/-! ### Concrete fixtures for witnesses and counterexamples -/

/-- Environment where every variable is set to a non-empty value. -/
def envFull : String → Option String := fun _ => some "x"

/-- A single-part message with all three headers present. -/
def msgHappy : GmailMessage :=
  ⟨⟨[⟨"Subject", "Weekly update"⟩, ⟨"From", "news@example.com"⟩, ⟨"Date", "Mon"⟩],
    none, some ⟨some "hello"⟩⟩⟩

/-- The record `get_unread_emails` builds from `msgHappy` under the
identity decoder. -/
def emailHappy (id : String) : Email :=
  ⟨id, "Weekly update", "news@example.com", "Mon", "hello"⟩

/-- A run where every external call succeeds, with two unread messages. -/
def oHappy : Oracle :=
  { env := envFull
    credsOk := true
    listResult := .ok ["m1", "m2"]
    getMsg := fun _ => .ok msgHappy
    decode := fun s => s
    geminiResult := .ok "Topic A: summary"
    sesResult := .ok "abc123"
    ackResult := .ok () }

/-- A run whose unread-listing call raises `HttpError`. -/
def oFetchFail : Oracle := { oHappy with listResult := .error () }

/-- A run where every individual `messages.get` raises `HttpError`. -/
def oGetFail : Oracle := { oHappy with getMsg := fun _ => .error () }

/-- A run with no unread messages. -/
def oEmptyBox : Oracle := { oHappy with listResult := .ok [] }

/-- A run whose Gemini call fails. -/
def oSummFail : Oracle := { oHappy with geminiResult := .error () }

/-- A run whose SES `send_raw_email` call fails. -/
def oSendFail : Oracle := { oHappy with sesResult := .error () }

/-- A run whose `batchModify` acknowledge call fails. -/
def oAckFail : Oracle := { oHappy with ackResult := .error () }

/-! ### Helper lemmas -/

theorem applyEvent_summarizeCall (u : List String) (es : List Email) :
    applyEvent u (.summarizeCall es) = u := rfl

theorem applyEvent_sendCall (u : List String) (b : Bool) :
    applyEvent u (.sendCall b) = u := rfl

theorem fetchLoop_error_of_mem (decode : String → String)
    (getMsg : String → Except Unit GmailMessage) (ids : List String) (i : String)
    (hi : i ∈ ids) (he : getMsg i = .error ()) :
    fetchLoop decode getMsg ids = .error () := by
  induction ids with
  | nil => cases hi
  | cons a rest ih =>
    cases hi with
    | head => simp [fetchLoop, he]
    | tail _ hi2 =>
      cases hg : getMsg a with
      | error e => cases e; simp [fetchLoop, hg]
      | ok m => simp [fetchLoop, hg, ih hi2]

theorem mainRun_of_empty_batch (o : Oracle)
    (h1 : requiredVars.any (envMissing o.env) = false) (h2 : o.credsOk = true)
    (h3 : get_unread_emails o = []) : mainRun o = ⟨0, []⟩ := by
  simp [mainRun, h1, h2, h3]

/-- Case analysis on one run: either the trace is empty (configuration,
credential, fetch-error or empty-batch exit), or the batch was non-empty
and the trace is one of the three shapes ending at summarize failure,
send failure, or the full successful pipeline. -/
theorem mainRun_shape (o : Oracle) :
    ((mainRun o).trace = [] ∧
      ((mainRun o).exitCode = 1 ∨ (get_unread_emails o = [] ∧ (mainRun o).exitCode = 0))) ∨
    (get_unread_emails o ≠ [] ∧
      (((mainRun o).trace = [Event.summarizeCall (get_unread_emails o)] ∧
          (mainRun o).exitCode = 1 ∧ o.geminiResult = Except.error ()) ∨
       ((mainRun o).trace = [Event.summarizeCall (get_unread_emails o), Event.sendCall false] ∧
          (mainRun o).exitCode = 1 ∧ o.sesResult = Except.error () ∧
          (∃ s, o.geminiResult = Except.ok s)) ∨
       ((mainRun o).trace =
            [Event.summarizeCall (get_unread_emails o), Event.sendCall true,
             Event.ackCall ((get_unread_emails o).map (fun e => e.id)) o.ackResult.isOk] ∧
          (mainRun o).exitCode = 0 ∧ (∃ mid, o.sesResult = Except.ok mid) ∧
          (∃ s, o.geminiResult = Except.ok s)))) := by
  by_cases h1 : requiredVars.any (envMissing o.env) = true
  · left
    constructor
    · simp [mainRun, h1]
    · left; simp [mainRun, h1]
  · by_cases h2 : o.credsOk = true
    · by_cases h3 : get_unread_emails o = []
      · left
        have h := mainRun_of_empty_batch o (by simpa using h1) h2 h3
        rw [h]
        exact ⟨rfl, Or.inr ⟨h3, rfl⟩⟩
      · right
        refine ⟨h3, ?_⟩
        cases hg : o.geminiResult with
        | error e =>
          cases e
          left
          refine ⟨?_, ?_, rfl⟩ <;>
            simp [mainRun, h1, h2, h3, hg, summarize_emails_with_gemini]
        | ok s =>
          cases hs : o.sesResult with
          | error e2 =>
            cases e2
            refine Or.inr (Or.inl ⟨?_, ?_, rfl, ⟨s, rfl⟩⟩) <;>
              simp [mainRun, h1, h2, h3, hg, hs, summarize_emails_with_gemini,
                send_summary_email]
          | ok mid =>
            refine Or.inr (Or.inr ⟨?_, ?_, ⟨mid, rfl⟩, ⟨s, rfl⟩⟩) <;>
              simp [mainRun, h1, h2, h3, hg, hs, summarize_emails_with_gemini,
                send_summary_email, mark_emails_as_read]
    · left
      constructor
      · simp [mainRun, h1, h2]
      · left; simp [mainRun, h1, h2]

theorem extractFromParts_skip (decode : String → String) (pre rest : List MsgPart)
    (h : ∀ q ∈ pre, ¬(q.mimeType = "text/plain" ∧ q.body.data ≠ none)) :
    extractFromParts decode (pre ++ rest) = extractFromParts decode rest := by
  induction pre with
  | nil => rfl
  | cons a pre ih =>
    have ha := h a (List.mem_cons_self a pre)
    have hrest := fun q hq => h q (List.mem_cons_of_mem a hq)
    by_cases hm : a.mimeType = "text/plain"
    · have hd : a.body.data = none := by
        by_contra hd
        exact ha ⟨hm, hd⟩
      simp [extractFromParts, hm, hd, ih hrest]
    · simp [extractFromParts, hm, ih hrest]

theorem extractFromParts_no_plain (decode : String → String) (parts : List MsgPart)
    (h : ∀ q ∈ parts, ¬(q.mimeType = "text/plain" ∧ q.body.data ≠ none)) :
    extractFromParts decode parts = "" := by
  have h2 := extractFromParts_skip decode parts [] h
  simpa using h2

theorem extract_body_of_parts (decode : String → String) (payload : Payload)
    (parts : List MsgPart) (h : payload.parts = some parts) :
    extract_body decode payload = extractFromParts decode parts := by
  rw [extract_body, h]

theorem extract_body_of_single (decode : String → String) (payload : Payload)
    (b : PartBody) (h1 : payload.parts = none) (h2 : payload.body = some b) :
    extract_body decode payload =
      (match b.data with | some d => decode d | none => "") := by
  rw [extract_body, h1, h2]

theorem extract_body_of_nobody (decode : String → String) (payload : Payload)
    (h1 : payload.parts = none) (h2 : payload.body = none) :
    extract_body decode payload = "" := by
  rw [extract_body, h1, h2]

theorem hasPlainText_of_parts (payload : Payload) (parts : List MsgPart)
    (h : payload.parts = some parts) :
    hasPlainText payload =
      parts.any (fun q => q.mimeType == "text/plain" && q.body.data.isSome) := by
  rw [hasPlainText, h]

theorem hasPlainText_of_single (payload : Payload) (b : PartBody)
    (h1 : payload.parts = none) (h2 : payload.body = some b) :
    hasPlainText payload = b.data.isSome := by
  rw [hasPlainText, h1, h2]

theorem summarize_nonempty_not_empty_input (l : List Email) (r : Except Unit String)
    (hl : l ≠ []) :
    summarize_emails_with_gemini l r ≠ Except.error SummErr.emptyInput := by
  unfold summarize_emails_with_gemini
  rw [if_neg hl]
  cases r <;> simp

/-! ### Claims -/

/-- Claim C1: in every run, an acknowledge call appears in the trace only
strictly after a send call that reported success; and when the trace
contains no successful send, the mailbox's unread state is unchanged at
the end of the run. -/
theorem ack_strictly_after_confirmed_send (o : Oracle) :
    (∀ t1 ids ok t2, (mainRun o).trace = t1 ++ Event.ackCall ids ok :: t2 →
      Event.sendCall true ∈ t1) ∧
    (Event.sendCall true ∉ (mainRun o).trace →
      ∀ init, finalUnread init (mainRun o).trace = init) := by
  rcases mainRun_shape o with ⟨ht, -⟩ | ⟨-, ⟨ht, -⟩ | ⟨ht, -⟩ | ⟨ht, -⟩⟩
  · refine ⟨?_, ?_⟩
    · intro t1 ids ok t2 heq
      rw [ht] at heq
      simp at heq
    · intro _ init
      rw [ht]
      rfl
  · refine ⟨?_, ?_⟩
    · intro t1 ids ok t2 heq
      rw [ht] at heq
      have hmem : Event.ackCall ids ok ∈
          [Event.summarizeCall (get_unread_emails o)] := by
        rw [heq]; simp
      simp at hmem
    · intro _ init
      rw [ht]
      rfl
  · refine ⟨?_, ?_⟩
    · intro t1 ids ok t2 heq
      rw [ht] at heq
      have hmem : Event.ackCall ids ok ∈
          [Event.summarizeCall (get_unread_emails o), Event.sendCall false] := by
        rw [heq]; simp
      simp at hmem
    · intro _ init
      rw [ht]
      rfl
  · refine ⟨?_, ?_⟩
    · intro t1 ids ok t2 heq
      rw [ht] at heq
      rcases t1 with - | ⟨a, - | ⟨b, t1x⟩⟩
      · simp at heq
      · simp at heq
      · simp only [List.cons_append, List.cons.injEq] at heq
        obtain ⟨-, hb, -⟩ := heq
        rw [← hb]
        simp
    · intro hns init
      rw [ht] at hns
      simp at hns

/-- Claim C1 witness: the all-success run acknowledges, and the prefix
before that acknowledge contains the successful send. -/
theorem ack_strictly_after_confirmed_send_witness :
    Event.sendCall true ∈
      [Event.summarizeCall [emailHappy "m1", emailHappy "m2"], Event.sendCall true] :=
  (ack_strictly_after_confirmed_send oHappy).1
    [Event.summarizeCall [emailHappy "m1", emailHappy "m2"], Event.sendCall true]
    ["m1", "m2"] true [] (by decide)

/-- Claim C2 counterexample: a transport failure in the listing call
(`oFetchFail`) or in every per-message fetch (`oGetFail`) makes
`get_unread_emails` return the empty list, and the run exits with status
0 — not the nonzero exit the claim requires. -/
theorem fetch_failure_counterexample :
    get_unread_emails oFetchFail = [] ∧ (mainRun oFetchFail).exitCode = 0 ∧
    get_unread_emails oGetFail = [] ∧ (mainRun oGetFail).exitCode = 0 := by
  decide

/-- Claim C2 (amended): any transport/API failure during the fetch
(listing call or an individual message fetch) makes `get_unread_emails`
swallow the error and return the empty list; a run that reaches the
fetch then takes the empty-batch path: it exits with status 0, sends no
digest and acknowledges nothing. -/
theorem fetch_failure_returns_empty_exits_zero (o : Oracle)
    (hfail : o.listResult = Except.error () ∨
      ∃ ids i, o.listResult = Except.ok ids ∧ i ∈ ids ∧ o.getMsg i = Except.error ()) :
    get_unread_emails o = [] ∧
    (requiredVars.any (envMissing o.env) = false → o.credsOk = true →
      mainRun o = ⟨0, []⟩) := by
  have hempty : get_unread_emails o = [] := by
    rcases hfail with h | ⟨ids, i, hlist, hi, hget⟩
    · simp [get_unread_emails, h]
    · rcases eq_or_ne ids [] with hnil | hnil
      · simp [get_unread_emails, hlist, hnil]
      · simp [get_unread_emails, hlist, hnil,
          fetchLoop_error_of_mem o.decode o.getMsg ids i hi hget]
  exact ⟨hempty, fun h1 h2 => mainRun_of_empty_batch o h1 h2 hempty⟩

/-- Claim C2 witness: the amended statement at the concrete failing runs. -/
theorem fetch_failure_returns_empty_exits_zero_witness :
    get_unread_emails oFetchFail = [] ∧ mainRun oFetchFail = ⟨0, []⟩ :=
  ⟨(fetch_failure_returns_empty_exits_zero oFetchFail (Or.inl rfl)).1,
   (fetch_failure_returns_empty_exits_zero oFetchFail (Or.inl rfl)).2 (by decide) rfl⟩

/-- Claim C3: whenever the run issues an acknowledge call, the id list it
passes is exactly the ids of the fetched batch — as lists, hence as an
unordered set. -/
theorem ack_ids_are_exactly_batch_ids (o : Oracle) (ids : List String) (ok : Bool)
    (h : Event.ackCall ids ok ∈ (mainRun o).trace) :
    ids = (get_unread_emails o).map (fun e => e.id) ∧
    (∀ i, i ∈ ids ↔ i ∈ (get_unread_emails o).map (fun e => e.id)) := by
  rcases mainRun_shape o with ⟨ht, -⟩ | ⟨-, ⟨ht, -⟩ | ⟨ht, -⟩ | ⟨ht, -⟩⟩ <;>
    rw [ht] at h <;> simp at h
  obtain ⟨hids, -⟩ := h
  exact ⟨hids, fun i => by rw [hids]⟩

/-- Claim C3 witness: the all-success run acknowledges exactly the two
fetched ids. -/
theorem ack_ids_are_exactly_batch_ids_witness :
    ["m1", "m2"] = (get_unread_emails oHappy).map (fun e => e.id) ∧
    (∀ i, i ∈ ["m1", "m2"] ↔ i ∈ (get_unread_emails oHappy).map (fun e => e.id)) :=
  ack_ids_are_exactly_batch_ids oHappy ["m1", "m2"] true (by decide)

/-- Claim C4: when the pipeline's summarize call fails, the run exits 1,
no send and no acknowledge call is ever issued, and the unread state is
left unmodified. -/
theorem summarization_failure_aborts (o : Oracle) (es : List Email)
    (hcall : Event.summarizeCall es ∈ (mainRun o).trace)
    (hfail : o.geminiResult = Except.error ()) :
    (mainRun o).exitCode = 1 ∧
    (∀ b, Event.sendCall b ∉ (mainRun o).trace) ∧
    (∀ ids ok, Event.ackCall ids ok ∉ (mainRun o).trace) ∧
    (∀ init, finalUnread init (mainRun o).trace = init) := by
  rcases mainRun_shape o with ⟨ht, -⟩ |
      ⟨-, ⟨ht, hexit, -⟩ | ⟨ht, -, -, s, hgem⟩ | ⟨ht, -, -, s, hgem⟩⟩
  · rw [ht] at hcall
    simp at hcall
  · refine ⟨hexit, ?_, ?_, ?_⟩
    · intro b
      rw [ht]
      simp
    · intro ids ok
      rw [ht]
      simp
    · intro init
      rw [ht]
      rfl
  · rw [hfail] at hgem
    simp at hgem
  · rw [hfail] at hgem
    simp at hgem

/-- Claim C4 witness: the Gemini-failure run. -/
theorem summarization_failure_aborts_witness :
    (mainRun oSummFail).exitCode = 1 ∧
    Event.sendCall true ∉ (mainRun oSummFail).trace ∧
    Event.ackCall ["m1", "m2"] true ∉ (mainRun oSummFail).trace ∧
    finalUnread ["m1", "m2"] (mainRun oSummFail).trace = ["m1", "m2"] := by
  have h := summarization_failure_aborts oSummFail
    [emailHappy "m1", emailHappy "m2"] (by decide) rfl
  exact ⟨h.1, h.2.1 true, h.2.2.1 ["m1", "m2"] true, h.2.2.2 ["m1", "m2"]⟩

/-- Claim C5: the mailer returns `false` (it never raises) on any failure
of the underlying raw-send call, and a run whose trace records a failed
send issues no acknowledge call and exits 1. -/
theorem send_failure_boolean_and_aborts :
    (∀ summary source dest region,
      send_summary_email summary source dest region (Except.error ()) = false) ∧
    (∀ o, Event.sendCall false ∈ (mainRun o).trace →
      (mainRun o).exitCode = 1 ∧ (∀ ids ok, Event.ackCall ids ok ∉ (mainRun o).trace)) := by
  refine ⟨fun _ _ _ _ => rfl, ?_⟩
  intro o hmem
  rcases mainRun_shape o with ⟨ht, -⟩ | ⟨-, ⟨ht, -⟩ | ⟨ht, hexit, -⟩ | ⟨ht, -⟩⟩ <;>
    rw [ht] at hmem <;> simp at hmem
  refine ⟨hexit, ?_⟩
  intro ids ok
  rw [ht]
  simp

/-- Claim C5 witness: the SES-failure run. -/
theorem send_failure_boolean_and_aborts_witness :
    send_summary_email "s" "f" "t" "r" (Except.error ()) = false ∧
    (mainRun oSendFail).exitCode = 1 ∧
    Event.ackCall ["m1", "m2"] true ∉ (mainRun oSendFail).trace :=
  ⟨send_failure_boolean_and_aborts.1 "s" "f" "t" "r",
   (send_failure_boolean_and_aborts.2 oSendFail (by decide)).1,
   (send_failure_boolean_and_aborts.2 oSendFail (by decide)).2 ["m1", "m2"] true⟩

/-- Claim C6: when the acknowledge call fails after a successful send,
the failing call is still recorded (logged) and the run exits 0. -/
theorem ack_failure_is_nonfatal (o : Oracle)
    (hsend : Event.sendCall true ∈ (mainRun o).trace)
    (hack : o.ackResult = Except.error ()) :
    (mainRun o).exitCode = 0 ∧
    Event.ackCall ((get_unread_emails o).map (fun e => e.id)) false ∈
      (mainRun o).trace := by
  rcases mainRun_shape o with ⟨ht, -⟩ | ⟨-, ⟨ht, -⟩ | ⟨ht, -⟩ | ⟨ht, hexit, -⟩⟩ <;>
    rw [ht] at hsend <;> simp at hsend
  refine ⟨hexit, ?_⟩
  rw [ht, hack]
  rw [show (Except.error () : Except Unit Unit).isOk = false from rfl]
  simp

/-- Claim C6 witness: the acknowledge-failure run. -/
theorem ack_failure_is_nonfatal_witness :
    (mainRun oAckFail).exitCode = 0 ∧
    Event.ackCall ((get_unread_emails oAckFail).map (fun e => e.id)) false ∈
      (mainRun oAckFail).trace :=
  ack_failure_is_nonfatal oAckFail (by decide) rfl

/-- Claim C7: a run that reaches the fetch and finds no unread messages
exits 0 having issued no summarize, send or acknowledge call. -/
theorem empty_batch_short_circuits (o : Oracle)
    (h1 : requiredVars.any (envMissing o.env) = false) (h2 : o.credsOk = true)
    (h3 : get_unread_emails o = []) :
    (mainRun o).exitCode = 0 ∧ (mainRun o).trace = [] ∧
    (∀ es, Event.summarizeCall es ∉ (mainRun o).trace) ∧
    (∀ b, Event.sendCall b ∉ (mainRun o).trace) ∧
    (∀ ids ok, Event.ackCall ids ok ∉ (mainRun o).trace) := by
  have h := mainRun_of_empty_batch o h1 h2 h3
  rw [h]
  exact ⟨rfl, rfl, fun es => by simp, fun b => by simp, fun ids ok => by simp⟩

/-- Claim C7 witness: the empty-mailbox run. -/
theorem empty_batch_short_circuits_witness :
    (mainRun oEmptyBox).exitCode = 0 ∧ (mainRun oEmptyBox).trace = [] ∧
    Event.summarizeCall [] ∉ (mainRun oEmptyBox).trace ∧
    Event.sendCall true ∉ (mainRun oEmptyBox).trace ∧
    Event.ackCall [] true ∉ (mainRun oEmptyBox).trace := by
  have h := empty_batch_short_circuits oEmptyBox (by decide) rfl (by decide)
  exact ⟨h.1, h.2.1, h.2.2.1 [], h.2.2.2.1 true, h.2.2.2.2 [] true⟩

/-- Claim C8: body extraction is a total function and follows the
extraction policy: in a multi-part payload the first plain-text part
carrying data is decoded; a single-part payload with data is decoded
directly; a payload with no plain-text content yields the empty string,
never an error. -/
theorem extract_body_policy (decode : String → String) :
    (∀ payload pre p post d, payload.parts = some (pre ++ p :: post) →
      (∀ q ∈ pre, ¬(q.mimeType = "text/plain" ∧ q.body.data ≠ none)) →
      p.mimeType = "text/plain" → p.body.data = some d →
      extract_body decode payload = decode d) ∧
    (∀ payload d, payload.parts = none → payload.body = some ⟨some d⟩ →
      extract_body decode payload = decode d) ∧
    (∀ payload, hasPlainText payload = false → extract_body decode payload = "") := by
  refine ⟨?_, ?_, ?_⟩
  · intro payload pre p post d hparts hpre hmime hdata
    rw [extract_body_of_parts decode payload (pre ++ p :: post) hparts]
    rw [extractFromParts_skip decode pre (p :: post) hpre]
    simp [extractFromParts, hmime, hdata]
  · intro payload d hparts hbody
    rw [extract_body_of_single decode payload ⟨some d⟩ hparts hbody]
  · intro payload hno
    cases hparts : payload.parts with
    | some parts =>
      rw [hasPlainText_of_parts payload parts hparts] at hno
      rw [extract_body_of_parts decode payload parts hparts]
      refine extractFromParts_no_plain decode parts ?_
      intro q hq hcontra
      obtain ⟨hm, hd⟩ := hcontra
      have hany : parts.any
          (fun q => q.mimeType == "text/plain" && q.body.data.isSome) = true := by
        refine List.any_eq_true.mpr ⟨q, hq, ?_⟩
        cases hdd : q.body.data with
        | none => exact absurd hdd hd
        | some dd => simp [hm, hdd]
      rw [hany] at hno
      cases hno
    | none =>
      cases hbody : payload.body with
      | none => exact extract_body_of_nobody decode payload hparts hbody
      | some b =>
        rw [hasPlainText_of_single payload b hparts hbody] at hno
        rw [extract_body_of_single decode payload b hparts hbody]
        cases hdd : b.data with
        | none => rfl
        | some dd =>
          rw [hdd] at hno
          cases hno

/-- Claim C8 witness: concrete multi-part, single-part and no-plain-text
payloads. -/
theorem extract_body_policy_witness :
    extract_body (fun s => s)
      ⟨[], some [⟨"text/html", ⟨some "h"⟩⟩, ⟨"text/plain", ⟨none⟩⟩,
                 ⟨"text/plain", ⟨some "hello"⟩⟩], none⟩ = "hello" ∧
    extract_body (fun s => s) ⟨[], none, some ⟨some "world"⟩⟩ = "world" ∧
    extract_body (fun s => s) ⟨[], some [⟨"text/html", ⟨some "h"⟩⟩], none⟩ = "" := by
  refine ⟨?_, ?_, ?_⟩
  · exact (extract_body_policy (fun s => s)).1
      ⟨[], some [⟨"text/html", ⟨some "h"⟩⟩, ⟨"text/plain", ⟨none⟩⟩,
                 ⟨"text/plain", ⟨some "hello"⟩⟩], none⟩
      [⟨"text/html", ⟨some "h"⟩⟩, ⟨"text/plain", ⟨none⟩⟩]
      ⟨"text/plain", ⟨some "hello"⟩⟩ [] "hello" rfl (by decide) rfl rfl
  · exact (extract_body_policy (fun s => s)).2.1
      ⟨[], none, some ⟨some "world"⟩⟩ "world" rfl rfl
  · exact (extract_body_policy (fun s => s)).2.2
      ⟨[], some [⟨"text/html", ⟨some "h"⟩⟩], none⟩ (by decide)

/-- Claim C9: summarizing an empty batch fails with the defensive
empty-input error, and this branch is unreachable under the
orchestrator: every summarize call recorded in a run's trace carries a
non-empty batch, and its result is never the empty-input error. -/
theorem summarize_empty_input_unreachable :
    (∀ r, summarize_emails_with_gemini [] r = Except.error SummErr.emptyInput) ∧
    (∀ o es, Event.summarizeCall es ∈ (mainRun o).trace →
      es ≠ [] ∧
      summarize_emails_with_gemini es o.geminiResult ≠
        Except.error SummErr.emptyInput) := by
  refine ⟨fun r => rfl, ?_⟩
  intro o es hmem
  rcases mainRun_shape o with ⟨ht, -⟩ | ⟨hne, ⟨ht, -⟩ | ⟨ht, -⟩ | ⟨ht, -⟩⟩ <;>
      rw [ht] at hmem <;> simp at hmem <;> rw [hmem]
  all_goals
    exact ⟨hne, summarize_nonempty_not_empty_input _ _ hne⟩

/-- Claim C9 witness: the empty batch fails, and the all-success run's
summarize call carries a non-empty batch. -/
theorem summarize_empty_input_unreachable_witness :
    summarize_emails_with_gemini [] (Except.ok "t") = Except.error SummErr.emptyInput ∧
    ([emailHappy "m1", emailHappy "m2"] ≠ [] ∧
      summarize_emails_with_gemini [emailHappy "m1", emailHappy "m2"]
        oHappy.geminiResult ≠ Except.error SummErr.emptyInput) :=
  ⟨summarize_empty_input_unreachable.1 (Except.ok "t"),
   summarize_empty_input_unreachable.2 oHappy [emailHappy "m1", emailHappy "m2"]
     (by decide)⟩

/-- Claim C10: acknowledging an empty id list is a no-op — the function
returns before issuing any mailbox API call, whatever the transport
would have answered. -/
theorem mark_emails_as_read_empty_noop (ackResult : Except Unit Unit) :
    mark_emails_as_read ackResult [] = [] := rfl

end Digest
